import Mathlib

/-!
Verification of the traffic-sign inference service against its specification.

Shallow embedding of the Python sources:
  - `src/config.py`   : `INPUT_SIZE`, `CLASS_NAMES`
  - `src/mltrack.py`  : bounded async logger (`log_async`, `_worker`, queue `_q`)
  - `src/infer.py`    : lazy singleton `get_model`, `predict_ndarray`, `predict_file`
  - `src/service.py`  : request handlers `predict`, `predict_batch`

Machine time (`time.time()` / `time.perf_counter()`) is modelled as an explicit
rational-valued clock threaded through the computation; every externally timed
step (decode, resize, detect, box mapping) advances the clock by a
parameter-supplied duration in seconds.  The detection model is opaque: its
output for a given call is supplied as a list of raw rows.  Python's
`round(x, d)` on non-negative values is modelled as exact round-half-to-even
at `d` decimal digits over `ℚ`.
-/

namespace TrafficSign

/-! ## config.py -/

/-- `INPUT_SIZE = 320` from `src/config.py`. -/
def INPUT_SIZE : Nat := 320

/-- `CLASS_NAMES` from `src/config.py` (10 classes, order as configured). -/
def CLASS_NAMES : List String :=
  [ "Speed Limit 50"
  , "Speed Limit 100"
  , "No Overtaking"
  , "Yield"
  , "Stop"
  , "No Entry"
  , "Danger Ahead"
  , "Road Work Ahead"
  , "Pedestrian Crossing"
  , "Children Crossing" ]

/-! ## Python `round` model -/

/-- Round a rational to the nearest integer, ties to even
(the behaviour of Python's builtin `round`). -/
def rndHalfEven (x : ℚ) : ℤ :=
  let f : ℤ := ⌊x⌋
  let frac : ℚ := x - f
  if frac < 1/2 then f
  else if 1/2 < frac then f + 1
  else if f % 2 = 0 then f else f + 1

/-- Python's `round(x, d)`: round to `d` decimal digits, ties to even. -/
def pyRound (d : Nat) (x : ℚ) : ℚ :=
  (rndHalfEven (x * (10 : ℚ) ^ d) : ℚ) / (10 : ℚ) ^ d

/-! ## mltrack.py -/

/-- A log event as enqueued by `log_async`:
`{"run_name": ..., "metrics": ..., "params": ...}`. -/
structure LogEvent where
  run_name : String
  metrics : List (String × ℚ)
  params : List (String × String)
deriving DecidableEq, Repr

/-- `_q = queue.Queue(maxsize=10000)` — the queue's capacity. -/
def qMaxsize : Nat := 10000

/-- The module-level state of `mltrack.py`: the configured tracking URI
(`_MLFLOW_URI`, absent or possibly empty) and the FIFO queue contents
(front of the list = oldest entry). -/
structure MLTrackState where
  uri : Option String
  q : List LogEvent
deriving DecidableEq, Repr

/-- Python truthiness test `not _MLFLOW_URI`: true when the environment
variable is unset (`None`) or the empty string. -/
def uriFalsy : Option String → Bool
  | none => true
  | some s => s == ""

/-- `log_async(run_name, metrics, params=None)` from `src/mltrack.py`:
no-op when tracking is disabled; otherwise a non-blocking `put_nowait`
that silently drops the event when the bounded queue is full. -/
def log_async (st : MLTrackState) (run_name : String)
    (metrics : List (String × ℚ)) (params : Option (List (String × String))) :
    MLTrackState :=
  if uriFalsy st.uri then st
  else if st.q.length < qMaxsize then
    { st with q := st.q ++ [⟨run_name, metrics, params.getD []⟩] }
  else st

/-- The worker's consumption loop body: pull items one at a time in FIFO
order; a `none` item is the poison value (`if item is None: break`); each
event is forwarded once to the backend, any failure being swallowed by the
`try/except Exception: pass`.  The returned list records each forwarding
attempt (the event and the backend outcome) in processing order. -/
def workerRun (backend : LogEvent → Except String Unit) :
    List (Option LogEvent) → List (LogEvent × Except String Unit)
  | [] => []
  | none :: _ => []
  | some e :: rest => (e, backend e) :: workerRun backend rest

/-- `_worker()` from `src/mltrack.py`: returns immediately when tracking is
disabled, otherwise runs the consumption loop over the queue contents. -/
def worker (uri : Option String) (backend : LogEvent → Except String Unit)
    (items : List (Option LogEvent)) : List (LogEvent × Except String Unit) :=
  if uriFalsy uri then [] else workerRun backend items

/-! ## infer.py -/

/-- One raw detector output row, as read off `r.boxes` in `predict_ndarray`:
class index (`astype(int)`), confidence (`astype(float)`) and the four
corner coordinates (`astype(int)`). -/
structure RawDet where
  cls_id : ℤ
  conf : ℚ
  x1 : ℤ
  y1 : ℤ
  x2 : ℤ
  y2 : ℤ
deriving DecidableEq, Repr

/-- A mapped detection box `{cls, conf, x1, y1, x2, y2}`. -/
structure Box where
  cls : String
  conf : ℚ
  x1 : ℤ
  y1 : ℤ
  x2 : ℤ
  y2 : ℤ
deriving DecidableEq, Repr

/-- `CLASS_NAMES[c_id] if 0 <= c_id < len(CLASS_NAMES) else str(c_id)`
from `predict_ndarray` in `src/infer.py`. -/
def classNameOf (c_id : ℤ) : String :=
  if h : 0 ≤ c_id ∧ c_id < (CLASS_NAMES.length : ℤ) then
    CLASS_NAMES.get ⟨c_id.toNat, by omega⟩
  else toString c_id

/-- The per-row box construction in `predict_ndarray`'s mapping loop:
`{"cls": name, "conf": float(round(c, 4)), "x1": ..., ...}`. -/
def mapBox (d : RawDet) : Box :=
  { cls := classNameOf d.cls_id
  , conf := pyRound 4 d.conf
  , x1 := d.x1, y1 := d.y1, x2 := d.x2, y2 := d.y2 }

/-- The per-call environment for one image: its filename and upload content
type (service layer), the opaque detector's output rows for this call, and
the wall-clock duration in seconds of each externally timed step. -/
structure FileEnv where
  filename : String
  contentType : Option String
  dets : List RawDet
  decode_s : ℚ
  resize_s : ℚ
  detect_s : ℚ
  map_s : ℚ
deriving DecidableEq, Repr

/-- `predict_ndarray(img, conf)` from `src/infer.py`, with the clock made
explicit.  `pre_t = time.time()` is read before the resize; the model call
and the box-mapping loop follow; `total_ms = (time.time() - pre_t) * 1000`
is taken after the mapping loop.  Returns `(boxes, total_ms, clock')`. -/
def predict_ndarray (env : FileEnv) (conf : ℚ) (clock : ℚ) :
    List Box × ℚ × ℚ :=
  let pre_t := clock
  let c1 := pre_t + env.resize_s
  let t0 := c1
  let c2 := t0 + env.detect_s
  let _inf_ms := (c2 - t0) * 1000
  let boxes := env.dets.map mapBox
  let c3 := c2 + env.map_s
  let total_ms := (c3 - pre_t) * 1000
  (boxes, total_ms, c3)

/-- `predict_file(file_bytes, conf)` from `src/infer.py`: decodes the bytes
(advancing the clock by the decode duration) and then calls
`predict_ndarray`. -/
def predict_file (env : FileEnv) (conf : ℚ) (clock : ℚ) :
    List Box × ℚ × ℚ :=
  predict_ndarray env conf (clock + env.decode_s)

/-- `get_model()` from `src/infer.py` in its sequential, fallible form:
`loader` is the effect of `YOLO(str(WEIGHTS_PATH))`, which either yields a
model handle or raises.  Input and output carry the module-level `_model`
cell; an exception propagates before the assignment `_model = ...` runs, so
the cell is unchanged on failure. -/
def get_model (loader : Except String Nat) (st : Option Nat) :
    Except String Nat × Option Nat :=
  match st with
  | some m => (.ok m, some m)
  | none =>
    match loader with
    | .ok m => (.ok m, some m)
    | .error e => (.error e, none)

/-! ## infer.py — `get_model` under concurrent first use

`get_model` is a plain unsynchronized check-then-set on the module global
`_model`.  We model two first-time callers as an interleaved transition
system: each thread's `if _model is None:` test and its
`_model = YOLO(...)` load-and-assign are separate atomic actions.  Loads
are numbered by a global counter, so distinct loads yield distinct handle
values. -/

/-- Program counter of one caller of `get_model`. -/
inductive GmPC where
  | check
  | load
  | done
deriving DecidableEq, Repr

/-- One caller: its program counter and the handle it has obtained. -/
structure GmThread where
  pc : GmPC
  res : Option Nat
deriving DecidableEq, Repr

/-- Shared state: the `_model` global, the number of completed loads, and
the two callers. -/
structure GmSys where
  gmodel : Option Nat
  loadCount : Nat
  t0 : GmThread
  t1 : GmThread
deriving DecidableEq, Repr

/-- One atomic action of a caller against the shared cell:
at `check`, read `_model` (branch of `if _model is None`); at `load`,
run `YOLO(...)` and assign the fresh handle to `_model`. -/
def gmStepThread (g : Option Nat) (lc : Nat) (t : GmThread) :
    Option Nat × Nat × GmThread :=
  match t.pc with
  | .check =>
    match g with
    | none => (g, lc, { t with pc := .load })
    | some m => (g, lc, { pc := .done, res := some m })
  | .load => (some lc, lc + 1, { pc := .done, res := some lc })
  | .done => (g, lc, t)

/-- Run one atomic action of the scheduled thread (`false` = caller 0). -/
def gmStep (s : GmSys) (tid : Bool) : GmSys :=
  if tid then
    let r := gmStepThread s.gmodel s.loadCount s.t1
    { s with gmodel := r.1, loadCount := r.2.1, t1 := r.2.2 }
  else
    let r := gmStepThread s.gmodel s.loadCount s.t0
    { s with gmodel := r.1, loadCount := r.2.1, t0 := r.2.2 }

/-- Run a schedule (a list of thread ids) from a state. -/
def gmRun (s : GmSys) (sched : List Bool) : GmSys :=
  sched.foldl gmStep s

/-- Initial state: `_model = None`, no loads yet, both callers about to
execute the `_model is None` test. -/
def gmInit : GmSys :=
  { gmodel := none, loadCount := 0
  , t0 := ⟨.check, none⟩, t1 := ⟨.check, none⟩ }

/-! ## service.py -/

/-- Python's `s.startswith(p)`: the first `len(p)` characters of `s` are
exactly `p`. -/
def pyStartsWith (s p : String) : Bool :=
  s.data.take p.data.length == p.data

/-- The content-type gate of the `/predict` handler:
`file.content_type is None or not file.content_type.startswith(("image/",
"application/octet-stream"))`. -/
def contentTypeRejected : Option String → Bool
  | none => true
  | some ct => !(pyStartsWith ct "image/" || pyStartsWith ct "application/octet-stream")

/-- One audit line written by the `/predict` handler's CSV loop. -/
structure CsvRow where
  timestamp : String
  filename : String
  cls : String
  conf : ℚ
  x1 : ℤ
  y1 : ℤ
  x2 : ℤ
  y2 : ℤ
  latency : ℚ
deriving DecidableEq, Repr

/-- `counts[b["cls"]] = counts.get(b["cls"], 0) + 1` on an
insertion-ordered dict, modelled as an association list. -/
def bump (m : List (String × ℚ)) (k : String) : List (String × ℚ) :=
  if (m.lookup k).isSome then
    m.map (fun p => if p.1 = k then (p.1, p.2 + 1) else p)
  else m ++ [(k, 1)]

/-- The per-class box count dict built by iterating over the boxes. -/
def countsOf (boxes : List Box) : List (String × ℚ) :=
  boxes.foldl (fun m b => bump m b.cls) []

/-- Everything observable about one `/predict` call: HTTP status, whether
`file.read()` ran, how many detector invocations occurred, the audit rows
appended to the CSV sink, the `ml_log` enqueue calls issued, and the JSON
response fields. -/
structure PredictOutcome where
  status : Nat
  fileWasRead : Bool
  detectCalls : Nat
  csvRows : List CsvRow
  mlCalls : List LogEvent
  respFile : Option String
  respConf : Option ℚ
  respBoxes : Option (List Box)
  respLatency : Option ℚ
deriving DecidableEq, Repr

/-- The `/predict` handler from `src/service.py`.  `now` is the formatted
`time.strftime(...)` timestamp and `apiWorkers` the `API_WORKERS`
environment value. -/
def predictEndpoint (env : FileEnv) (conf : ℚ) (now : String)
    (apiWorkers : String) (clock : ℚ) : PredictOutcome :=
  if contentTypeRejected env.contentType then
    { status := 400, fileWasRead := false, detectCalls := 0
    , csvRows := [], mlCalls := []
    , respFile := none, respConf := none, respBoxes := none, respLatency := none }
  else
    let r := predict_file env conf clock
    let boxes := r.1
    let latency_ms := r.2.1
    let rows := boxes.map (fun b =>
      { timestamp := now, filename := env.filename, cls := b.cls
      , conf := b.conf, x1 := b.x1, y1 := b.y1, x2 := b.x2, y2 := b.y2
      , latency := pyRound 3 latency_ms })
    let counts := countsOf boxes
    let call : LogEvent :=
      { run_name := "inference"
      , metrics := [("latency_ms", latency_ms), ("n_boxes", (boxes.length : ℚ))]
          ++ counts.map (fun p => ("class_" ++ p.1 ++ "_count", p.2))
      , params := [("conf", toString conf), ("imgsz", "640"), ("api_workers", apiWorkers)] }
    { status := 200, fileWasRead := true, detectCalls := 1
    , csvRows := rows, mlCalls := [call]
    , respFile := some env.filename, respConf := some conf
    , respBoxes := some boxes, respLatency := some (pyRound 3 latency_ms) }

/-- One entry of the batch response's `results` list. -/
structure BatchItem where
  filename : String
  boxes : List Box
  latency_ms : ℚ
deriving DecidableEq, Repr

/-- Everything observable about one `/predict_batch` call. -/
structure BatchOutcome where
  batch_size : Nat
  results : List BatchItem
  batch_latency_ms : ℚ
  avg_latency_ms : ℚ
  csvRows : List CsvRow
  mlCalls : List LogEvent
deriving DecidableEq, Repr

/-- The `for f in files:` loop of `/predict_batch`: read each file, run
`predict_file`, append its result; the clock threads through the calls. -/
def batchLoop (conf : ℚ) : List FileEnv → ℚ → List BatchItem × ℚ
  | [], clock => ([], clock)
  | f :: rest, clock =>
    let r := predict_file f conf clock
    let tail := batchLoop conf rest r.2.2
    ({ filename := f.filename, boxes := r.1, latency_ms := r.2.1 } :: tail.1, tail.2)

/-- The `/predict_batch` handler from `src/service.py`.  `t0` is the
`time.perf_counter()` reading at entry; `elapsed` the loop's wall-clock in
ms; `avg_latency = elapsed / max(1, len(files))`.  The handler performs no
CSV audit write. -/
def predict_batch (files : List FileEnv) (conf : ℚ) (apiWorkers : String)
    (clock : ℚ) : BatchOutcome :=
  let t0 := clock
  let r := batchLoop conf files t0
  let results := r.1
  let elapsed := (r.2 - t0) * 1000
  let avg_latency := elapsed / (max 1 files.length : ℚ)
  let totalBoxesList := results.foldl (fun acc it => acc ++ it.boxes) []
  let total_counts := countsOf totalBoxesList
  let total_boxes := totalBoxesList.length
  let call : LogEvent :=
    { run_name := "batch_inference"
    , metrics := [("batch_latency_ms", pyRound 2 elapsed)
                 , ("avg_latency_ms", pyRound 2 avg_latency)
                 , ("batch_size", (files.length : ℚ))
                 , ("n_boxes_total", (total_boxes : ℚ))]
        ++ total_counts.map (fun p => ("class_" ++ p.1 ++ "_count", p.2))
    , params := [("conf", toString conf), ("imgsz", "640"), ("api_workers", apiWorkers)] }
  { batch_size := files.length
  , results := results
  , batch_latency_ms := pyRound 2 elapsed
  , avg_latency_ms := pyRound 2 avg_latency
  , csvRows := []
  , mlCalls := [call] }

/-- The total number of seconds a file's processing advances the clock by
(decode, resize, detect, box mapping). -/
def fileSeconds (f : FileEnv) : ℚ :=
  f.decode_s + f.resize_s + f.detect_s + f.map_s

/-- Sum of `fileSeconds` over a batch, in submission order. -/
def sumSeconds : List FileEnv → ℚ
  | [] => 0
  | f :: rest => fileSeconds f + sumSeconds rest

/-! ## Shared concrete sample data -/

/-- A sample event used to fill the queue in witnesses. -/
def sampleEvent : LogEvent := ⟨"inference", [], []⟩

/-- A full-queue logger state: backend configured, queue at capacity. -/
def fullState : MLTrackState :=
  ⟨some "http://mlflow:5000", List.replicate 10000 sampleEvent⟩

/-- A sample upload whose detector output is a single row of class 0. -/
def sampleFile : FileEnv :=
  ⟨"x.png", some "image/png", [⟨0, 9/10, 1, 2, 3, 4⟩], 0, 0, 1/100, 0⟩

/-- A three-image batch whose loop wall-clock is exactly 100 ms. -/
def cxFiles : List FileEnv :=
  [⟨"a.png", some "image/png", [], 0, 0, 1/10, 0⟩,
   ⟨"b.png", some "image/png", [], 0, 0, 0, 0⟩,
   ⟨"c.png", some "image/png", [], 0, 0, 0, 0⟩]

/-! ## Claim theorems -/

/-- Helper: `rndHalfEven` maps any rational less than half above an integer
to that integer. -/
theorem rndHalfEven_low (x : ℚ) (f : ℤ) (h1 : (f : ℚ) ≤ x)
    (h2 : x < (f : ℚ) + 1/2) : rndHalfEven x = f := by
  have hfl : ⌊x⌋ = f := Int.floor_eq_iff.mpr ⟨h1, by linarith⟩
  simp only [rndHalfEven]
  rw [hfl, if_pos (by linarith)]

/-- C1: `log_async` is a no-op when no backend is configured (it neither
errors, blocks, nor writes to the queue), and when a backend is configured
but the bounded queue (capacity 10000) is full, the event is dropped and
the call returns without blocking and without raising. -/
theorem log_async_never_blocks (st : MLTrackState) (n : String)
    (m : List (String × ℚ)) (p : Option (List (String × String))) :
    qMaxsize = 10000 ∧
    (uriFalsy st.uri = true → log_async st n m p = st) ∧
    (uriFalsy st.uri = false → qMaxsize ≤ st.q.length → log_async st n m p = st) := by
  refine ⟨rfl, ?_, ?_⟩
  · intro h
    simp [log_async, h]
  · intro h hfull
    have hlt : ¬ st.q.length < qMaxsize := by omega
    simp [log_async, h, hlt]

/-- Witness for C1: a disabled-logger state is left untouched, and a
configured state whose queue holds 10000 entries is left untouched. -/
theorem log_async_never_blocks_witness :
    log_async ⟨none, []⟩ "inference" [] none = ⟨none, []⟩ ∧
    log_async fullState "inference" [] none = fullState := by
  constructor
  · exact (log_async_never_blocks ⟨none, []⟩ "inference" [] none).2.1 rfl
  · refine (log_async_never_blocks fullState "inference" [] none).2.2 rfl ?_
    show qMaxsize ≤ (List.replicate 10000 sampleEvent).length
    rw [List.length_replicate]
    exact Nat.le.refl

/-- C2: whatever the backend does (including failing on every event), the
worker attempts each consumed event exactly once, never terminates its loop
on a failure, and processes the queue in FIFO order. -/
theorem worker_swallows_failures_fifo (uri : Option String)
    (backend : LogEvent → Except String Unit) (items : List LogEvent)
    (h : uriFalsy uri = false) :
    (worker uri backend (items.map some ++ [Option.none])).map Prod.fst = items := by
  simp only [worker, h, Bool.false_eq_true, if_false]
  induction items with
  | nil => rfl
  | cons e rest ih => simpa [workerRun] using ih

/-- Witness for C2: with a configured URI and a backend that fails on every
event, both queued events are still attempted, in order. -/
theorem worker_swallows_failures_fifo_witness :
    (worker (some "http://mlflow:5000") (fun _ => .error "network down")
        ([⟨"inference", [("latency_ms", 5)], []⟩, sampleEvent].map some
          ++ [Option.none])).map Prod.fst
      = [⟨"inference", [("latency_ms", 5)], []⟩, sampleEvent] :=
  worker_swallows_failures_fifo _ _ _ rfl

/-- C4: if loading fails on first use, `get_model` propagates the failure,
returns no handle, and leaves the `_model` cell unset, so a later call with
a succeeding loader performs the load; once loaded, the cached instance is
returned even if the loader would now fail. -/
theorem get_model_failure_retryable (e : String) (m : Nat) :
    get_model (.error e) none = (.error e, none) ∧
    get_model (.ok m) (get_model (.error e) none).2 = (.ok m, some m) ∧
    get_model (.error e) (get_model (.ok m) none).2 = (.ok m, some m) :=
  ⟨rfl, rfl, rfl⟩

/-- C5: the latency reported by `predict_file` is the wall-clock elapsed
across resize, detection and box mapping only; the decode duration (and the
absolute clock value) do not enter the reported figure. -/
theorem latency_excludes_decode (env : FileEnv) (conf clock : ℚ) :
    (predict_file env conf clock).2.1
      = (env.resize_s + env.detect_s + env.map_s) * 1000 := by
  simp only [predict_file, predict_ndarray]
  ring

/-- Helper: `classNameOf` at an in-range index returns the configured name. -/
theorem classNameOf_in_range (i : Nat) (h : i < CLASS_NAMES.length) :
    classNameOf (i : ℤ) = CLASS_NAMES.get ⟨i, h⟩ := by
  have hcond : 0 ≤ (i : ℤ) ∧ (i : ℤ) < (CLASS_NAMES.length : ℤ) := by omega
  unfold classNameOf
  rw [dif_pos hcond]
  rfl

/-- C6: box mapping is total on every detector row; a class index outside
the configured table yields the decimal string of the index as class name,
while an in-range index yields the configured name at that index. -/
theorem unknown_class_string_fallback (d : RawDet) :
    ((d.cls_id < 0 ∨ (CLASS_NAMES.length : ℤ) ≤ d.cls_id) →
        (mapBox d).cls = toString d.cls_id) ∧
    (∀ (i : Nat) (h : i < CLASS_NAMES.length), d.cls_id = (i : ℤ) →
        (mapBox d).cls = CLASS_NAMES.get ⟨i, h⟩) := by
  constructor
  · intro h
    have hcond : ¬ (0 ≤ d.cls_id ∧ d.cls_id < (CLASS_NAMES.length : ℤ)) := by omega
    simp [mapBox, classNameOf, hcond]
  · intro i hi hd
    show classNameOf d.cls_id = _
    rw [hd, classNameOf_in_range i hi]

/-- Witness for C6: index 17 (out of range) degrades to the string `"17"`;
index 4 maps to the configured name `"Stop"`. -/
theorem unknown_class_string_fallback_witness :
    (mapBox ⟨17, 1/2, 0, 0, 4, 4⟩).cls = "17" ∧
    (mapBox ⟨4, 1/2, 0, 0, 4, 4⟩).cls = "Stop" := by
  constructor
  · exact ((unknown_class_string_fallback ⟨17, 1/2, 0, 0, 4, 4⟩).1
      (Or.inr (by decide))).trans (by decide)
  · exact ((unknown_class_string_fallback ⟨4, 1/2, 0, 0, 4, 4⟩).2
      4 (by decide) rfl).trans (by decide)

/-- C3 counterexample: under the interleaving check₀, check₁, load₀, load₁
both first-time callers pass the `_model is None` test before either
assigns, so two loads complete and the callers obtain distinct instances —
refuting "exactly one load occurs and all callers observe the same single
completed instance". -/
theorem get_model_race_counterexample :
    (gmRun gmInit [false, true, false, true]).loadCount = 2 ∧
    (gmRun gmInit [false, true, false, true]).t0.pc = GmPC.done ∧
    (gmRun gmInit [false, true, false, true]).t1.pc = GmPC.done ∧
    (gmRun gmInit [false, true, false, true]).t0.res = some 0 ∧
    (gmRun gmInit [false, true, false, true]).t1.res = some 1 ∧
    (gmRun gmInit [false, true, false, true]).t0.res
      ≠ (gmRun gmInit [false, true, false, true]).t1.res := by
  decide

/-- C3 amended: when the two first-time callers do not interleave (either
caller runs to completion before the other starts), exactly one load occurs
and both callers observe the same completed instance. -/
theorem get_model_sequential_single_load :
    ((gmRun gmInit [false, false, true]).loadCount = 1 ∧
     (gmRun gmInit [false, false, true]).t0.pc = GmPC.done ∧
     (gmRun gmInit [false, false, true]).t1.pc = GmPC.done ∧
     (gmRun gmInit [false, false, true]).t0.res = some 0 ∧
     (gmRun gmInit [false, false, true]).t1.res = some 0) ∧
    ((gmRun gmInit [true, true, false]).loadCount = 1 ∧
     (gmRun gmInit [true, true, false]).t0.res = some 0 ∧
     (gmRun gmInit [true, true, false]).t1.res = some 0) := by
  decide

/-- Helper: the batch loop's final clock advances by the total processing
seconds of the submitted files, and its results carry the filenames in
submission order. -/
theorem batchLoop_spec (conf : ℚ) (files : List FileEnv) (c : ℚ) :
    (batchLoop conf files c).2 = c + sumSeconds files ∧
    (batchLoop conf files c).1.map (fun it => it.filename)
      = files.map (fun f => f.filename) := by
  induction files generalizing c with
  | nil => simp [batchLoop, sumSeconds]
  | cons f rest ih =>
    refine ⟨?_, ?_⟩
    · show (batchLoop conf rest ((c + f.decode_s + f.resize_s) + f.detect_s + f.map_s)).2
        = c + sumSeconds (f :: rest)
      rw [(ih _).1]
      show _ = c + (fileSeconds f + sumSeconds rest)
      unfold fileSeconds
      ring
    · show ({ filename := f.filename, boxes := _, latency_ms := _ } : BatchItem).filename
        :: (batchLoop conf rest _).1.map (fun it => it.filename)
        = f.filename :: rest.map (fun g => g.filename)
      rw [(ih _).2]

/-- C7 counterexample: a three-image batch whose loop takes exactly 100 ms
returns `batch_latency_ms = 100` but `avg_latency_ms = 33.33`
(= `round(100/3, 2)`), which is not `batch_latency_ms / 3`: the two
returned figures are rounded independently before the division claimed by
the spec could relate them. -/
theorem batch_avg_rounding_counterexample :
    (predict_batch cxFiles (1/4) "1" 0).batch_size = 3 ∧
    (predict_batch cxFiles (1/4) "1" 0).batch_latency_ms = 100 ∧
    (predict_batch cxFiles (1/4) "1" 0).avg_latency_ms = 3333/100 ∧
    (predict_batch cxFiles (1/4) "1" 0).avg_latency_ms
      ≠ (predict_batch cxFiles (1/4) "1" 0).batch_latency_ms / 3 := by
  have hclock : (batchLoop (1/4 : ℚ) cxFiles 0).2 = 1/10 := by
    rw [(batchLoop_spec (1/4) cxFiles 0).1]
    norm_num [cxFiles, sumSeconds, fileSeconds]
  have hlen : cxFiles.length = 3 := rfl
  have hp100 : pyRound 2 (100 : ℚ) = 100 := by
    simp only [pyRound]
    rw [show rndHalfEven ((100 : ℚ) * 10 ^ 2) = 10000 from
      rndHalfEven_low _ _ (by norm_num) (by norm_num)]
    norm_num
  have hpavg : pyRound 2 ((100 : ℚ) / 3) = 3333/100 := by
    simp only [pyRound]
    rw [show rndHalfEven ((100 : ℚ) / 3 * 10 ^ 2) = 3333 from
      rndHalfEven_low _ _ (by norm_num) (by norm_num)]
    norm_num
  have h2 : (predict_batch cxFiles (1/4) "1" 0).batch_latency_ms = 100 := by
    show pyRound 2 (((batchLoop (1/4 : ℚ) cxFiles 0).2 - 0) * 1000) = 100
    rw [hclock, show ((1 : ℚ)/10 - 0) * 1000 = 100 by norm_num]
    exact hp100
  have h3 : (predict_batch cxFiles (1/4) "1" 0).avg_latency_ms = 3333/100 := by
    show pyRound 2 ((((batchLoop (1/4 : ℚ) cxFiles 0).2 - 0) * 1000)
        / (max 1 (cxFiles.length : ℚ))) = 3333/100
    rw [hclock, hlen]
    rw [show (((1 : ℚ)/10 - 0) * 1000) / (max 1 ((3 : ℕ) : ℚ)) = 100 / 3 by
      rw [show (max 1 ((3 : ℕ) : ℚ)) = 3 by norm_num [max_def]]
      norm_num]
    exact hpavg
  refine ⟨rfl, h2, h3, ?_⟩
  rw [h2, h3]
  norm_num

/-- C7 amended: a batch call returns one result per image in submission
order, and its latency figures are computed from the unrounded loop
wall-clock `elapsed` (in ms): `batch_latency_ms = round(elapsed, 2)` and
`avg_latency_ms = round(elapsed / max(1, N), 2)` — each rounded to two
decimals independently, so `avg_latency_ms` can differ from
`batch_latency_ms / N` in the rounded digits. -/
theorem batch_order_and_latency (files : List FileEnv) (conf : ℚ)
    (w : String) (clock : ℚ) :
    (predict_batch files conf w clock).results.map (fun it => it.filename)
        = files.map (fun f => f.filename) ∧
    (predict_batch files conf w clock).batch_size = files.length ∧
    (predict_batch files conf w clock).batch_latency_ms
        = pyRound 2 (sumSeconds files * 1000) ∧
    (predict_batch files conf w clock).avg_latency_ms
        = pyRound 2 (sumSeconds files * 1000 / (max 1 files.length : ℚ)) := by
  have hclock := (batchLoop_spec conf files clock).1
  have hnames := (batchLoop_spec conf files clock).2
  have helapsed : ((batchLoop conf files clock).2 - clock) * 1000
      = sumSeconds files * 1000 := by rw [hclock]; ring
  refine ⟨?_, rfl, ?_, ?_⟩
  · exact hnames
  · show pyRound 2 (((batchLoop conf files clock).2 - clock) * 1000) = _
    rw [helapsed]
  · show pyRound 2 ((((batchLoop conf files clock).2 - clock) * 1000)
        / (max 1 files.length : ℚ)) = _
    rw [helapsed]

/-- C8 counterexample: a successful one-image batch call whose single image
produces one detection box appends zero audit lines to the CSV sink —
`predict_batch` performs no CSV write at all, refuting "whether
single-image or batch ... exactly one audit line per detection box". -/
theorem batch_no_audit_counterexample :
    (predict_batch [sampleFile] (1/4) "1" 0).csvRows = [] ∧
    (predict_batch [sampleFile] (1/4) "1" 0).results.map (fun it => it.boxes.length)
      = [1] := by
  decide

/-- C8 amended: after a successful single-image predict call, exactly one
audit line is appended per detection box, carrying timestamp, source
filename, class, confidence, box coordinates and latency; the batch
endpoint appends no audit lines. -/
theorem audit_rows_single_only (env : FileEnv) (conf : ℚ)
    (now w : String) (clock : ℚ) :
    (contentTypeRejected env.contentType = false →
      (predictEndpoint env conf now w clock).csvRows.map
          (fun r => (r.timestamp, r.filename, r.cls, r.conf, r.x1, r.y1, r.x2, r.y2, r.latency))
        = (predict_file env conf clock).1.map
          (fun b => (now, env.filename, b.cls, b.conf, b.x1, b.y1, b.x2, b.y2,
                     pyRound 3 (predict_file env conf clock).2.1))) ∧
    (∀ (files : List FileEnv) (c k : ℚ) (w2 : String),
        (predict_batch files c w2 k).csvRows = []) := by
  constructor
  · intro h
    simp [predictEndpoint, h, List.map_map, Function.comp]
  · intro files c k w2
    rfl

/-- Witness for C8's amended theorem, at a one-box upload. -/
theorem audit_rows_single_only_witness :
    ((predictEndpoint sampleFile (1/4) "2026-10-12 00:00:00" "1" 0).csvRows.map
        (fun r => (r.timestamp, r.filename, r.cls, r.conf, r.x1, r.y1, r.x2, r.y2, r.latency))
      = (predict_file sampleFile (1/4) 0).1.map
        (fun b => ("2026-10-12 00:00:00", sampleFile.filename, b.cls, b.conf,
                   b.x1, b.y1, b.x2, b.y2, pyRound 3 (predict_file sampleFile (1/4) 0).2.1))) ∧
    (predict_batch [sampleFile] (1/4) "1" 0).csvRows = [] :=
  ⟨(audit_rows_single_only sampleFile (1/4) "2026-10-12 00:00:00" "1" 0).1 (by decide),
   (audit_rows_single_only sampleFile (1/4) "2026-10-12 00:00:00" "1" 0).2 [sampleFile] (1/4) 0 "1"⟩

/-- C9: the handler issues exactly one enqueue per successful predict call,
whose metrics are the latency, box count and per-class counts and whose
params are the threshold, an input-size entry and the worker count — but
the input-size param is the hard-coded string "640", not the configured
`INPUT_SIZE` (320) actually used for the resize: the code contradicts its
own configuration. -/
theorem imgsz_param_mismatch :
    (predictEndpoint sampleFile (1/4) "ts" "1" 0).mlCalls.length = 1 ∧
    (predictEndpoint sampleFile (1/4) "ts" "1" 0).mlCalls.map
        (fun c => c.metrics.map Prod.fst)
      = [["latency_ms", "n_boxes", "class_Speed Limit 50_count"]] ∧
    (predictEndpoint sampleFile (1/4) "ts" "1" 0).mlCalls.map
        (fun c => c.params.map Prod.fst)
      = [["conf", "imgsz", "api_workers"]] ∧
    (predictEndpoint sampleFile (1/4) "ts" "1" 0).mlCalls.map
        (fun c => c.params.lookup "imgsz")
      = [some "640"] ∧
    toString INPUT_SIZE = "320" ∧
    (∀ c ∈ (predictEndpoint sampleFile (1/4) "ts" "1" 0).mlCalls,
        c.params.lookup "imgsz" ≠ some (toString INPUT_SIZE)) := by
  decide

/-- Helper: `predict_file` does not read the upload's content type. -/
theorem predict_file_ct (f : FileEnv) (ct : Option String) (conf c : ℚ) :
    predict_file { f with contentType := ct } conf c = predict_file f conf c := rfl

/-- Helper: replacing the content type leaves the filename unchanged. -/
theorem filename_ct (f : FileEnv) (ct : Option String) :
    ({ f with contentType := ct } : FileEnv).filename = f.filename := rfl

/-- Helper: the batch endpoint never reads the uploads' content types —
its outcome is unchanged when every file's content type is replaced. -/
theorem batchLoop_contentType_invariant (conf : ℚ) (ct : Option String)
    (files : List FileEnv) :
    ∀ c : ℚ, batchLoop conf (files.map (fun f => { f with contentType := ct })) c
      = batchLoop conf files c := by
  induction files with
  | nil => intro c; rfl
  | cons f rest ih =>
    intro c
    simp only [List.map_cons, batchLoop, predict_file_ct, filename_ct, ih]

/-- C10: an upload with no content type, or one starting with neither
"image/" nor "application/octet-stream", is rejected by `/predict` with a
400 before the bytes are read — no inference, no audit write, no logger
enqueue, no response body; the batch endpoint applies no such check (its
outcome is independent of the uploads' content types). -/
theorem content_type_gate (env : FileEnv) (conf : ℚ) (now w : String) (clock : ℚ) :
    (env.contentType = none → contentTypeRejected env.contentType = true) ∧
    (∀ s, env.contentType = some s →
        pyStartsWith s "image/" = false →
        pyStartsWith s "application/octet-stream" = false →
        contentTypeRejected env.contentType = true) ∧
    (contentTypeRejected env.contentType = true →
      predictEndpoint env conf now w clock =
        { status := 400, fileWasRead := false, detectCalls := 0
        , csvRows := [], mlCalls := []
        , respFile := none, respConf := none, respBoxes := none
        , respLatency := none }) ∧
    (∀ (files : List FileEnv) (ct : Option String),
        predict_batch (files.map (fun f => { f with contentType := ct })) conf w clock
          = predict_batch files conf w clock) := by
  refine ⟨?_, ?_, ?_, ?_⟩
  · intro h; rw [h]; rfl
  · intro s hs h1 h2
    rw [hs]
    simp [contentTypeRejected, h1, h2]
  · intro h
    simp [predictEndpoint, h]
  · intro files ct
    simp only [predict_batch, batchLoop_contentType_invariant conf ct files,
      List.length_map]

/-- Witness for C10: a `text/plain` upload is rejected with a 400 and no
side effects, and replacing the content types of a concrete batch does not
change the batch outcome. -/
theorem content_type_gate_witness :
    predictEndpoint ⟨"a.txt", some "text/plain", [], 0, 0, 0, 0⟩ (1/4) "ts" "1" 0
      = { status := 400, fileWasRead := false, detectCalls := 0
        , csvRows := [], mlCalls := []
        , respFile := none, respConf := none, respBoxes := none
        , respLatency := none } ∧
    predict_batch ([sampleFile].map (fun f => { f with contentType := some "text/plain" }))
        (1/4) "1" 0
      = predict_batch [sampleFile] (1/4) "1" 0 := by
  constructor
  · exact (content_type_gate ⟨"a.txt", some "text/plain", [], 0, 0, 0, 0⟩
      (1/4) "ts" "1" 0).2.2.1 (by decide)
  · exact (content_type_gate ⟨"a.txt", some "text/plain", [], 0, 0, 0, 0⟩
      (1/4) "ts" "1" 0).2.2.2 [sampleFile] (some "text/plain")

end TrafficSign
